import Mathlib

/-!
Shallow embedding of the FACET MCP tool-dispatch server
(src/facet_mcp/server.py, src/facet_mcp/core/facets.py,
src/facet_mcp/core/validator.py, src/facet_mcp/protocol/messages.py,
src/facet_mcp/protocol/transport.py) and proofs about it.

Python dictionaries / JSON values are embedded as the inductive `JVal`;
machine floats are avoided (the only float in scope, the execution-time
metadata, is modelled as an opaque integer supplied by the environment,
since no claim depends on its value).  External collaborators that are
not part of this repository (the `facet` document engine, the `facet`
lens library and the `jsonschema` package) are modelled as parameters
gathered in the `Collaborators` structure, following the specification,
which treats them as opaque functions.
-/

namespace FacetMCP

/-- JSON-shaped Python value (spec §9: tagged union
null/bool/number/string/sequence/mapping).  Mappings are association
lists in insertion order, matching Python dict semantics. -/
inductive JVal where
  | null
  | bool (b : Bool)
  | int (n : Int)
  | str (s : String)
  | arr (xs : List JVal)
  | obj (kvs : List (String × JVal))

/-- Python exception value: class name plus `str(e)` text. -/
structure Exc where
  name : String
  msg : String
deriving DecidableEq, Repr

/-- First-match association-list lookup (Python dict lookup; the dict
literals built by the server have unique keys). -/
def lookupK {α : Type} (l : List (String × α)) (k : String) : Option α :=
  match l with
  | [] => none
  | (k1, v) :: rest => if k1 = k then some v else lookupK rest k

/-- Python `d[k] = v`: replace the value of an existing key in place,
otherwise append the new entry. -/
def setK (l : List (String × JVal)) (k : String) (v : JVal) : List (String × JVal) :=
  match l with
  | [] => [(k, v)]
  | (k1, v1) :: rest => if k1 = k then (k1, v) :: rest else (k1, v1) :: setK rest k v

/-- Python subscription `params[k]`: `KeyError` on a mapping without the
key (whose `str` is the quoted key), `TypeError` on non-mappings. -/
def pyGetItem (v : JVal) (k : String) : Except Exc JVal :=
  match v with
  | .obj kvs =>
      match lookupK kvs k with
      | some x => .ok x
      | none => .error ⟨"KeyError", "'" ++ k ++ "'"⟩
  | .str _ => .error ⟨"TypeError", "string indices must be integers"⟩
  | .arr _ => .error ⟨"TypeError", "list indices must be integers or slices, not str"⟩
  | _ => .error ⟨"TypeError", "object is not subscriptable"⟩

/-- Python `d.get(k, default)` on a mapping (callers guarantee `v` is a
mapping when this is reached). -/
def pyGet (v : JVal) (k : String) (dflt : JVal) : JVal :=
  match v with
  | .obj kvs => (lookupK kvs k).getD dflt
  | _ => dflt

/-- Python truthiness of a JSON-shaped value. -/
def pyTruthy (v : JVal) : Bool :=
  match v with
  | .null => false
  | .bool b => b
  | .int n => n != 0
  | .str s => s ≠ ""
  | .arr xs => !xs.isEmpty
  | .obj kvs => !kvs.isEmpty

/-- Extract a Python `str`. -/
def asStr (v : JVal) : Option String :=
  match v with
  | .str s => some s
  | _ => none

/-- Python `f"{v}"` interpolation for the values the server interpolates
(strings verbatim, `None` as "None", booleans/ints in Python `str` form;
containers only ever reach this in unexercised corners and are rendered
approximately). -/
def pyStrInterp (v : JVal) : String :=
  match v with
  | .str s => s
  | .null => "None"
  | .bool b => if b then "True" else "False"
  | .int n => toString n
  | .arr _ => "[...]"
  | .obj _ => "\x7b...\x7d"

/-! ## Template substitution (core/facets.py, TemplateEngine) -/

/-- Is `pat` a prefix of `s`? (character-exact). -/
def isPre (pat s : List Char) : Bool :=
  match pat, s with
  | [], _ => true
  | _ :: _, [] => false
  | p :: ps, c :: cs => p = c && isPre ps cs

/-- Does `pat` occur as a contiguous substring of `s`?  Mirrors Python
`pat in s` for nonempty `pat`. -/
def occursL (pat s : List Char) : Bool :=
  match s with
  | [] => pat.isEmpty
  | _ :: rest => isPre pat s || occursL pat rest

/-- Fuelled core of Python `str.replace`: scan left to right, replace
each leftmost occurrence of `pat`, continue after the replaced
occurrence (the replacement text is not rescanned).  One unit of fuel is
spent per source character, so `fuel = s.length` always suffices. -/
def replaceAllF (pat rep : List Char) : Nat → List Char → List Char
  | 0, s => s
  | _ + 1, [] => []
  | fuel + 1, c :: rest =>
      if isPre pat (c :: rest) && !pat.isEmpty then
        rep ++ replaceAllF pat rep fuel (rest.drop (pat.length - 1))
      else
        c :: replaceAllF pat rep fuel rest

/-- Python `s.replace(pat, rep)` for nonempty `pat` (every pattern used
by the engine is a `\x7b\x7bkey\x7d\x7d` token, hence nonempty). -/
def pyReplace (s pat rep : String) : String :=
  ⟨replaceAllF pat.data rep.data s.data.length s.data⟩

/-- Does `pat` occur in the string `s`? -/
def occursStr (pat s : String) : Bool :=
  occursL pat.data s.data

/-- JSON string escaping as performed by `json.dumps` on the inputs the
claims exercise (quote, backslash and common control characters;
non-ASCII escaping is not needed by any theorem below). -/
def escapeJChar (c : Char) : String :=
  if c = '"' then "\\\""
  else if c = '\\' then "\\\\"
  else if c = '\n' then "\\n"
  else if c = '\t' then "\\t"
  else if c = '\r' then "\\r"
  else String.singleton c

def dumpJStr (s : String) : String :=
  "\"" ++ String.join (s.data.map escapeJChar) ++ "\""

/-- json.dumps with default separators (", " between items, ": " after
keys), insertion key order. -/
def dumps : JVal → String
  | .null => "null"
  | .bool b => if b then "true" else "false"
  | .int n => toString n
  | .str s => dumpJStr s
  | .arr xs =>
      "[" ++ String.intercalate ", " (xs.attach.map (fun x => dumps x.1)) ++ "]"
  | .obj kvs =>
      "\x7b" ++ String.intercalate ", "
        (kvs.attach.map (fun kv => dumpJStr kv.1.1 ++ ": " ++ dumps kv.1.2)) ++ "\x7d"
decreasing_by
  all_goals simp_wf
  · have := List.sizeOf_lt_of_mem x.2
    omega
  · have h1 := List.sizeOf_lt_of_mem kv.2
    have h2 : sizeOf kv.1.2 < sizeOf kv.1 := by
      obtain ⟨k, v⟩ := kv.1
      simp only [Prod.mk.sizeOf_spec]
      omega
    omega

/-- Stable insertion (by strict key order) used to model Python
`sort_keys=True`. -/
def insertByKey (p : String × String) : List (String × String) → List (String × String)
  | [] => [p]
  | q :: rest => if p.1 < q.1 then p :: q :: rest else q :: insertByKey p rest

def sortByKey (l : List (String × String)) : List (String × String) :=
  l.foldr insertByKey []

/-- Model of `json.dumps(v, sort_keys=True)`: like `dumps` but every mapping is
emitted with its keys stably sorted (the validator-cache canonical
key). -/
def dumpsSorted : JVal → String
  | .null => "null"
  | .bool b => if b then "true" else "false"
  | .int n => toString n
  | .str s => dumpJStr s
  | .arr xs =>
      "[" ++ String.intercalate ", " (xs.attach.map (fun x => dumpsSorted x.1)) ++ "]"
  | .obj kvs =>
      "\x7b" ++ String.intercalate ", "
        ((sortByKey (kvs.attach.map (fun kv => (kv.1.1, dumpsSorted kv.1.2)))).map
          (fun p => dumpJStr p.1 ++ ": " ++ p.2)) ++ "\x7d"
decreasing_by
  all_goals simp_wf
  · have := List.sizeOf_lt_of_mem x.2
    omega
  · have h1 := List.sizeOf_lt_of_mem kv.2
    have h2 : sizeOf kv.1.2 < sizeOf kv.1 := by
      obtain ⟨k, v⟩ := kv.1
      simp only [Prod.mk.sizeOf_spec]
      omega
    omega

/-- The string a variable value is substituted as
(TemplateEngine.substitute_variables, the isinstance chain): strings
pass through, ints/bools via Python `str`, dicts and lists via
`json.dumps(..., ensure_ascii=False)`, anything else via `str`. -/
def render (v : JVal) : String :=
  match v with
  | .str s => s
  | .int n => toString n
  | .bool b => if b then "True" else "False"
  | .obj kvs => dumps (.obj kvs)
  | .arr xs => dumps (.arr xs)
  | .null => "None"

/-- TemplateEngine.substitute_variables: for each `(key, value)` pair in
insertion order, replace every occurrence of the token
`\x7b\x7bkey\x7d\x7d` by `render value`. -/
def substitute_variables (src : String) (vars : List (String × JVal)) : String :=
  vars.foldl
    (fun acc kv => pyReplace acc ("\x7b\x7b" ++ kv.1 ++ "\x7d\x7d") (render kv.2)) src

/-! ## Small Python string helpers -/

/-- Python `str.strip()` whitespace set. -/
def pySpace (c : Char) : Bool :=
  c = ' ' || c = '\t' || c = '\n' || c = '\r' || c = Char.ofNat 11 || c = Char.ofNat 12

/-- Python `s.strip()`. -/
def pyTrim (s : String) : String :=
  ⟨((s.data.dropWhile pySpace).reverse.dropWhile pySpace).reverse⟩

/-- Value of a nonempty all-digit character list. -/
def digitsVal (l : List Char) : Option Nat :=
  match l with
  | [] => none
  | _ =>
      if l.all Char.isDigit then
        some (l.foldl (fun a c => a * 10 + (c.toNat - 48)) 0)
      else none

/-- Python `int(s)` on an already-stripped string: optional sign then
decimal digits, `None` (a `ValueError`) otherwise.  (Underscore digit
grouping, accepted by CPython, is not modelled; no lens argument in
scope uses it.) -/
def pyInt (s : String) : Option Int :=
  match s.data with
  | '+' :: rest => (digitsVal rest).map Int.ofNat
  | '-' :: rest => (digitsVal rest).map (fun n => -(Int.ofNat n))
  | l => (digitsVal l).map Int.ofNat

/-- Python `s.split(c)` for a one-character separator. -/
def splitOnCharL (c : Char) : List Char → List (List Char)
  | [] => [[]]
  | x :: rest =>
      if x = c then [] :: splitOnCharL c rest
      else
        match splitOnCharL c rest with
        | [] => [[x]]
        | h :: t => (x :: h) :: t

def splitOnChar (c : Char) (s : String) : List String :=
  (splitOnCharL c s.data).map (fun l => ⟨l⟩)

/-- Python `s[:-1]`. -/
def dropLastChar (s : String) : String :=
  ⟨s.data.dropLast⟩

/-- Python `s.endswith(")")`. -/
def endsParen (s : String) : Bool :=
  s.data.getLast? = some ')'

/-- Python iteration `for x in v` over a JSON-shaped value: sequences
yield their items, strings their characters (as 1-character strings),
mappings their keys; other values raise `TypeError`. -/
def pyIter (v : JVal) : Except Exc (List JVal) :=
  match v with
  | .arr xs => .ok xs
  | .str s => .ok (s.data.map (fun c => .str (String.singleton c)))
  | .obj kvs => .ok (kvs.map (fun kv => .str kv.1))
  | .null => .error ⟨"TypeError", "'NoneType' object is not iterable"⟩
  | .bool _ => .error ⟨"TypeError", "'bool' object is not iterable"⟩
  | .int _ => .error ⟨"TypeError", "'int' object is not iterable"⟩

/-! ## External collaborators (spec §1: the document/lens engine and the
jsonschema library are opaque functions outside this core) -/

/-- One `jsonschema` validation error: message plus instance path
(`str` of each path element). -/
structure JErr where
  message : String
  path : List String

/-- External collaborators, as the specification's opaque interfaces:
`executeDoc` is `parse_facet`+`to_json`+`json.loads` (raises
`FACETError` on a bad document), `lensApply` is
`facet.lenses.apply_lenses` on one `(name, arg-or-None)` pair (raises
`LensError` for an unknown lens name), `checkSchema` is
`Draft7Validator.check_schema` (`some message` models the `SchemaError`
it raises on an invalid schema), `iterErrors` is
`validator.iter_errors` (which may itself raise, e.g. `UnknownType`),
and `elapsedMs` stands for the wall-clock execution time measurement. -/
structure Collaborators where
  executeDoc : String → Except Exc (List (String × JVal))
  lensApply : String → String → Option Int → Except Exc String
  checkSchema : JVal → Option String
  iterErrors : JVal → JVal → Except Exc (List JErr)
  elapsedMs : Int

/-- A trivial collaborator instantiation used by concrete witnesses. -/
def C0 : Collaborators :=
  ⟨fun _ => .ok [], fun t _ _ => .ok t, fun _ => none, fun _ _ => .ok [], 0⟩

/-! ## Lens engine (core/facets.py, FACETEngine) -/

/-- The call into the external lens library,
`apply_lenses(text, [(name, arg-or-None)])`: the library operates on
strings and raises on a non-string input (modelled `TypeError`). -/
def lensCall (C : Collaborators) (tv : JVal) (fn : String) (arg : Option Int) :
    Except Exc String :=
  match asStr tv with
  | some text => C.lensApply text fn arg
  | none => .error ⟨"TypeError", "lens input must be a string"⟩

/-- FACETEngine._apply_single_lens: parse the `name(arg)` textual
convention exactly as the Python does (`split("(")[1][:-1]`, single
integer argument) — the parse runs before the input text is touched —
then call the external lens, and wrap any exception into a
`ValueError` naming the offending lens spec. -/
def applySingleLens (C : Collaborators) (tv : JVal) (specv : JVal) : Except Exc String :=
  let inner : Except Exc String :=
    match asStr specv with
    | none => .error ⟨"TypeError", "argument of type 'int' is not iterable"⟩
    | some sp =>
      if occursStr "(" sp && endsParen sp then
        let parts := splitOnChar '(' sp
        let fn := parts.headD ""
        let argsStr := dropLastChar (parts.getD 1 "")
        if pyTrim argsStr ≠ "" then
          match pyInt (pyTrim argsStr) with
          | some n => lensCall C tv fn (some n)
          | none => .error ⟨"ValueError", "Unsupported lens arguments: " ++ argsStr⟩
        else lensCall C tv fn none
      else lensCall C tv sp none
  match inner with
  | .ok r => .ok r
  | .error e =>
      .error ⟨"ValueError", "Error applying lens '" ++ pyStrInterp specv ++ "': " ++ e.msg⟩

/-- The `for lens_spec in lenses` loop of
FACETEngine.apply_lenses_to_text. -/
def applyLensesGo (C : Collaborators) (tv : JVal) : List JVal → Except Exc JVal
  | [] => .ok tv
  | sp :: rest =>
      match applySingleLens C tv sp with
      | .ok t2 => applyLensesGo C (.str t2) rest
      | .error e => .error e

/-- FACETEngine.apply_lenses_to_text: apply each lens left to right;
any exception is re-raised as `ValueError("Error applying lenses: ...")`. -/
def apply_lenses_to_text (C : Collaborators) (textv lensesv : JVal) : Except Exc JVal :=
  match (match pyIter lensesv with
         | .error e => .error e
         | .ok items => applyLensesGo C textv items : Except Exc JVal) with
  | .ok r => .ok r
  | .error e => .error ⟨"ValueError", "Error applying lenses: " ++ e.msg⟩

/-! ## Document execution (core/facets.py, FACETEngine.execute_facet) -/

/-- FACETExecutionError.to_dict. -/
def errDict (msg ty : String) : List (String × JVal) :=
  [("success", .bool false), ("error", .str msg), ("error_type", .str ty)]

/-- FACETExecutionResult.to_dict: copy the result and set its `_meta`
entry (execution time modelled as the collaborator-supplied integer). -/
def withMeta (rd : List (String × JVal)) (t : Int) : List (String × JVal) :=
  setK rd "_meta"
    (.obj [("execution_time_ms", .int t), ("server", .str "FACET MCP Server v0.1.0")])

/-- FACETEngine.execute_facet: substitute template variables when the
variables mapping is truthy, run the external document engine, attach
`_meta`; `FACETError` and any other exception are caught and returned
as an error dictionary (not raised). -/
def execute_facet (C : Collaborators) (fsv varsv : JVal) : List (String × JVal) :=
  let body : Except Exc (List (String × JVal)) :=
    match asStr fsv with
    | none => .error ⟨"TypeError", "facet source must be a string"⟩
    | some src =>
      let srcE : Except Exc String :=
        if pyTruthy varsv then
          match varsv with
          | .obj kvs => .ok (substitute_variables src kvs)
          | _ => .error ⟨"AttributeError", "object has no attribute 'items'"⟩
        else .ok src
      match srcE with
      | .error e => .error e
      | .ok src2 =>
        match C.executeDoc src2 with
        | .error e => .error e
        | .ok rd => .ok (withMeta rd C.elapsedMs)
  match body with
  | .ok d => d
  | .error e =>
      if e.name = "FACETError" then errDict e.msg "FACETError"
      else errDict e.msg e.name

/-! ## Validator cache (core/validator.py, SchemaValidator) -/

/-- Result of schema validation (the ValidationResult dataclass). -/
structure ValidationResult where
  is_valid : Bool
  errors : Option (List String) := none
  validated_data : Option JVal := none

/-- A cached compiled validator: a compilation stamp (so that "same
compiled identity" is expressible) plus the schema it was compiled
from. -/
structure CachedValidator where
  stamp : Nat
  schema : JVal

/-- The mutable state of a SchemaValidator: its `schema_cache` dict
(insertion order) plus the next compilation stamp. -/
structure VState where
  cache : List (String × CachedValidator)
  nextStamp : Nat

def VState.init : VState := ⟨[], 0⟩

/-- The `validator.iter_errors(data)` portion of validate: empty error
list means valid; otherwise the errors are formatted as
`"message at p1 -> p2"`. -/
def iterResult (C : Collaborators) (schema data : JVal) : Except Exc ValidationResult :=
  match C.iterErrors schema data with
  | .error e => .error e
  | .ok [] => .ok ⟨true, none, some data⟩
  | .ok errs =>
      .ok ⟨false,
        some (errs.map (fun er => er.message ++ " at " ++ String.intercalate " -> " er.path)),
        none⟩

/-- The two `except` clauses of SchemaValidator.validate:
`jsonschema.SchemaError` becomes `"Invalid schema: ..."`, any other
exception `"Validation error: ..."`. -/
def catchValidate (r : Except Exc ValidationResult) : ValidationResult :=
  match r with
  | .ok v => v
  | .error e =>
      if e.name = "SchemaError" then ⟨false, some ["Invalid schema: " ++ e.msg], none⟩
      else ⟨false, some ["Validation error: " ++ e.msg], none⟩

/-- SchemaValidator.validate: canonical key via
`json.dumps(schema, sort_keys=True)`; on a cache miss the validator is
inserted into the cache FIRST and `check_schema` only runs afterwards
(so a `SchemaError` leaves the bad validator cached); on a cache hit
`check_schema` never runs. -/
def SchemaValidator.validate (C : Collaborators) (st : VState) (data schema : JVal) :
    ValidationResult × VState :=
  let key := dumpsSorted schema
  match lookupK st.cache key with
  | some v => (catchValidate (iterResult C v.schema data), st)
  | none =>
      let v : CachedValidator := ⟨st.nextStamp, schema⟩
      let st2 : VState := ⟨st.cache ++ [(key, v)], st.nextStamp + 1⟩
      match C.checkSchema schema with
      | some m => (⟨false, some ["Invalid schema: " ++ m], none⟩, st2)
      | none => (catchValidate (iterResult C schema data), st2)

/-! ## Tool handlers (server.py) -/

/-- The failure dictionary every handler's `except Exception` clause
returns: `str(e)` and the exception class name. -/
def failPayload (e : Exc) : List (String × JVal) :=
  [("success", .bool false), ("error", .str e.msg), ("error_type", .str e.name)]

/-- The `result.get("_meta", \x7b\x7d).get("execution_time_ms", 0)`
chain of _handle_execute. -/
def metaTimeE (result : List (String × JVal)) : Except Exc JVal :=
  match lookupK result "_meta" with
  | none => .ok (.int 0)
  | some (.obj m) => .ok ((lookupK m "execution_time_ms").getD (.int 0))
  | some _ => .error ⟨"AttributeError", "object has no attribute 'get'"⟩

/-- The body of _handle_execute (everything inside its `try`). -/
def executeBody (C : Collaborators) (params : JVal) : Except Exc (List (String × JVal)) :=
  match pyGetItem params "facet_source" with
  | .error e => .error e
  | .ok fsv =>
    let varsv := pyGet params "variables" (.obj [])
    let result := execute_facet C fsv varsv
    match metaTimeE result with
    | .error e => .error e
    | .ok t =>
        .ok [("success", .bool true), ("result", .obj result), ("execution_time_ms", t)]

/-- The body of _handle_apply_lenses (everything inside its `try`). -/
def lensesBody (C : Collaborators) (params : JVal) : Except Exc (List (String × JVal)) :=
  match pyGetItem params "input_string" with
  | .error e => .error e
  | .ok isv =>
    match pyGetItem params "lenses" with
    | .error e => .error e
    | .ok lsv =>
      match apply_lenses_to_text C isv lsv with
      | .error e => .error e
      | .ok r =>
          .ok [("success", .bool true), ("result", r), ("applied_lenses", lsv)]

/-- The body of _handle_validate_schema (everything inside its `try`);
threads the validator-cache state. -/
def validateBody (C : Collaborators) (st : VState) (params : JVal) :
    Except Exc (List (String × JVal)) × VState :=
  match pyGetItem params "json_object" with
  | .error e => (.error e, st)
  | .ok jo =>
    match pyGetItem params "json_schema" with
    | .error e => (.error e, st)
    | .ok js =>
      let r := SchemaValidator.validate C st jo js
      (.ok [("success", .bool true), ("valid", .bool r.1.is_valid),
            ("errors",
              if r.1.is_valid then .null
              else match r.1.errors with
                   | some es => .arr (es.map JVal.str)
                   | none => .null)], r.2)

/-- Handler _handle_execute: body wrapped in the catch-all `except`. -/
def handleExecute (C : Collaborators) (params : JVal) : List (String × JVal) :=
  match executeBody C params with
  | .ok p => p
  | .error e => failPayload e

/-- Handler _handle_apply_lenses: body wrapped in the catch-all `except`. -/
def handleApplyLenses (C : Collaborators) (params : JVal) : List (String × JVal) :=
  match lensesBody C params with
  | .ok p => p
  | .error e => failPayload e

/-- Handler _handle_validate_schema: body wrapped in the catch-all `except`. -/
def handleValidateSchema (C : Collaborators) (st : VState) (params : JVal) :
    List (String × JVal) × VState :=
  match validateBody C st params with
  | (.ok p, st2) => (p, st2)
  | (.error e, st2) => (failPayload e, st2)

/-- The outcome of the selected tool handler's `try` body, for stating
how the dispatch converts handler exceptions. -/
def toolBodyResult (C : Collaborators) (st : VState) (tool : String) (params : JVal) :
    Except Exc (List (String × JVal)) :=
  match tool with
  | "execute" => executeBody C params
  | "apply_lenses" => lensesBody C params
  | "validate_schema" => (validateBody C st params).1
  | _ => .ok []

/-! ## Tool registry (server.py, _initialize_tools) -/

/-- An MCP tool descriptor (handler dispatch is by name below, the
registry being the immutable name/description/parameter-schema map). -/
structure MCPTool where
  name : String
  description : String
  parameters : JVal

def executeParamsSchema : JVal := .obj [
  ("type", .str "object"),
  ("properties", .obj [
    ("facet_source", .obj [
      ("type", .str "string"),
      ("description", .str "Complete FACET document text to execute")]),
    ("variables", .obj [
      ("type", .str "object"),
      ("description", .str "Optional variables for template substitution"),
      ("additionalProperties", .bool true)])]),
  ("required", .arr [.str "facet_source"])]

def applyLensesParamsSchema : JVal := .obj [
  ("type", .str "object"),
  ("properties", .obj [
    ("input_string", .obj [
      ("type", .str "string"),
      ("description", .str "Text to process with lenses")]),
    ("lenses", .obj [
      ("type", .str "array"),
      ("items", .obj [("type", .str "string")]),
      ("description", .str "List of lenses to apply (e.g., ['dedent', 'trim', 'limit(100)'])")])]),
  ("required", .arr [.str "input_string", .str "lenses"])]

def validateSchemaParamsSchema : JVal := .obj [
  ("type", .str "object"),
  ("properties", .obj [
    ("json_object", .obj [
      ("type", .str "object"),
      ("description", .str "JSON object to validate")]),
    ("json_schema", .obj [
      ("type", .str "object"),
      ("description", .str "JSON Schema to validate against")])]),
  ("required", .arr [.str "json_object", .str "json_schema"])]

/-- The three registered tools, in dict insertion order. -/
def tools : List MCPTool := [
  ⟨"execute",
   "Executes a complete FACET document with SIMD optimizations. Use for complex multi-step pipelines with input processing, transformations, and output contracts.",
   executeParamsSchema⟩,
  ⟨"apply_lenses",
   "Applies one or more FACET lenses to input text. Use for atomic, reliable text transformations like trimming, dedenting, or squeezing spaces.",
   applyLensesParamsSchema⟩,
  ⟨"validate_schema",
   "Validates JSON data against a JSON Schema. Use to ensure data quality and format correctness before returning results to users.",
   validateSchemaParamsSchema⟩]

/-- Python `list(self.tools.keys())`. -/
def toolNames : List String := tools.map (fun t => t.name)

/-- The `required` list of a JSON-Schema-shaped parameter schema. -/
def requiredKeys (schema : JVal) : List String :=
  match pyGet schema "required" (.arr []) with
  | .arr xs => xs.filterMap asStr
  | _ => []

/-! ## Dispatch engine (server.py, handle_message) -/

/-- The MCPMessage dataclass (protocol/messages.py): `id` and
`timestamp` default to `None`. -/
structure MCPMessage where
  type : String
  data : List (String × JVal)
  id : Option String := none
  timestamp : Option Int := none

/-- Membership test `tool_name in self.tools`: the name value must be a
string equal to a registered tool name.  (Python dict membership with
an unhashable name value — a list or dict — would instead raise
`TypeError` out of handle_message into the transport loop; that corner
is outside this model, and theorems about the unknown-tool branch
assume a hashable name.) -/
def registeredName (v : Option JVal) : Bool :=
  match v with
  | some (.str s) => toolNames.contains s
  | _ => false

/-- Is the value usable as a Python dict key (hashable)? -/
def pyHashable (v : JVal) : Bool :=
  match v with
  | .arr _ => false
  | .obj _ => false
  | _ => true

/-- The tools_list payload (name, description, parameters — handlers
excluded). -/
def toolsInfo : List JVal :=
  tools.map (fun t =>
    .obj [("name", .str t.name), ("description", .str t.description),
          ("parameters", t.parameters)])

/-- The tool name of a tool_call message (`tool_call.get("name")`,
which is then used as the registry key). -/
def toolNameOf (m : MCPMessage) : String :=
  match lookupK m.data "name" with
  | some (.str s) => s
  | _ => ""

/-- Python `tool_call.get("parameters", \x7b\x7d)`. -/
def paramsOf (m : MCPMessage) : JVal :=
  (lookupK m.data "parameters").getD (.obj [])

/-- Dispatch `self.tools[tool_name].handler(...)`: select and run the matching
handler (the registry's handler field, dispatched by name). -/
def dispatched (C : Collaborators) (st : VState) (tool : String) (params : JVal) :
    List (String × JVal) × VState :=
  match tool with
  | "execute" => (handleExecute C params, st)
  | "apply_lenses" => (handleApplyLenses C params, st)
  | "validate_schema" => handleValidateSchema C st params
  | _ => ([], st)

/-- FACETMCPServer.handle_message: route a message, threading the
validator-cache state (the only cross-call state). -/
def handle_message (C : Collaborators) (st : VState) (m : MCPMessage) :
    MCPMessage × VState :=
  if m.type = "tool_call" then
    let tc := m.data
    if registeredName (lookupK tc "name") then
      let pr := dispatched C st (toolNameOf m) (paramsOf m)
      (⟨"tool_result",
        [("tool_call_id", (lookupK tc "id").getD .null), ("result", .obj pr.1)],
        none, none⟩, pr.2)
    else
      (⟨"error",
        [("error", .str ("Unknown tool: " ++ pyStrInterp ((lookupK tc "name").getD .null))),
         ("available_tools", .arr (toolNames.map JVal.str))],
        none, none⟩, st)
  else if m.type = "list_tools" then
    (⟨"tools_list", [("tools", .arr toolsInfo)], none, none⟩, st)
  else
    (⟨"error", [("error", .str ("Unknown message type: " ++ m.type))], none, none⟩, st)

/-! ## Per-connection receive loop (protocol/transport.py,
MCPTransport._handle_connection): `async for message_raw in websocket`
fully handles each inbound message and writes its response before the
next message is read, so one connection is a sequential fold. -/

def connectionLoop (C : Collaborators) : VState → List MCPMessage → List MCPMessage × VState
  | st, [] => ([], st)
  | st, m :: ms =>
      let r := handle_message C st m
      let rest := connectionLoop C r.2 ms
      (r.1 :: rest.1, rest.2)

/-! ## Supporting lemmas -/

/-- If the pattern occurs nowhere in the source, a replacement pass
leaves the source unchanged (for any amount of fuel). -/
theorem replaceAllF_of_not_occurs (pat rep : List Char) :
    ∀ (fuel : Nat) (s : List Char), occursL pat s = false →
      replaceAllF pat rep fuel s = s := by
  intro fuel
  induction fuel with
  | zero => intro s _; rfl
  | succ n ih =>
    intro s h
    match s with
    | [] => rfl
    | c :: rest =>
      rw [occursL] at h
      rw [Bool.or_eq_false_iff] at h
      rw [replaceAllF, h.1]
      simp only [Bool.false_and, Bool.false_eq_true, if_false]
      rw [ih rest h.2]

/-- String version of `replaceAllF_of_not_occurs`. -/
theorem pyReplace_of_not_occurs (s pat rep : String) (h : occursStr pat s = false) :
    pyReplace s pat rep = s := by
  obtain ⟨d⟩ := s
  unfold pyReplace
  rw [replaceAllF_of_not_occurs _ _ _ _ h]

/-- A source containing none of the mapping's placeholder tokens is a
fixed point of substitution. -/
theorem substitute_fixed (vars : List (String × JVal)) :
    ∀ (src : String),
      (∀ kv ∈ vars, occursStr ("\x7b\x7b" ++ kv.1 ++ "\x7d\x7d") src = false) →
      substitute_variables src vars = src := by
  induction vars with
  | nil => intro src _; rfl
  | cons kv rest ih =>
    intro src h
    unfold substitute_variables
    rw [List.foldl_cons]
    rw [pyReplace_of_not_occurs _ _ _ (h kv (List.mem_cons_self kv rest))]
    exact ih src (fun kv2 h2 => h kv2 (List.mem_cons_of_mem kv h2))

/-- A registered tool name is one of the three tool names. -/
theorem registeredName_cases (v : Option JVal) (h : registeredName v = true) :
    v = some (.str "execute") ∨ v = some (.str "apply_lenses") ∨
    v = some (.str "validate_schema") := by
  match v with
  | some (.str s) =>
    simp only [registeredName] at h
    have hs : s ∈ toolNames := List.mem_of_elem_eq_true h
    simp only [toolNames, tools, List.map, List.mem_cons, List.not_mem_nil, or_false] at hs
    rcases hs with h | h | h
    · exact Or.inl (by rw [h])
    · exact Or.inr (Or.inl (by rw [h]))
    · exact Or.inr (Or.inr (by rw [h]))
  | some .null | some (.bool _) | some (.int _) | some (.arr _) | some (.obj _) =>
    simp [registeredName] at h
  | none => simp [registeredName] at h

/-- Shape of the dispatch response for a registered tool call: a
`tool_result` envelope whose data is exactly
`\x7btool_call_id, result\x7d`, whose correlation id echoes the
request's `data.id`, whose own envelope id is unset, and whose result
is the selected handler's payload. -/
theorem handle_message_registered (C : Collaborators) (st : VState) (m : MCPMessage)
    (h1 : m.type = "tool_call")
    (h2 : registeredName (lookupK m.data "name") = true) :
    handle_message C st m =
      (⟨"tool_result",
        [("tool_call_id", (lookupK m.data "id").getD .null),
         ("result", .obj (dispatched C st (toolNameOf m) (paramsOf m)).1)],
        none, none⟩,
       (dispatched C st (toolNameOf m) (paramsOf m)).2) := by
  simp only [handle_message, h1, h2]
  simp

/-- Shape of the dispatch response for a tool call whose name is not
registered: an `error` envelope naming the tool and listing exactly the
registered tool names. -/
theorem handle_message_unknown (C : Collaborators) (st : VState) (m : MCPMessage)
    (h1 : m.type = "tool_call")
    (h2 : registeredName (lookupK m.data "name") = false) :
    handle_message C st m =
      (⟨"error",
        [("error", .str ("Unknown tool: " ++ pyStrInterp ((lookupK m.data "name").getD .null))),
         ("available_tools", .arr [.str "execute", .str "apply_lenses", .str "validate_schema"])],
        none, none⟩, st) := by
  simp only [handle_message, h1, h2]
  simp [toolNames, tools]

/-- A handler payload is exactly one of: a success payload, or
success=false plus error and error_type — never both. -/
def wellformedPayload (p : List (String × JVal)) : Prop :=
  (lookupK p "success" = some (.bool true) ∧ lookupK p "error" = none ∧
   lookupK p "error_type" = none) ∨
  (lookupK p "success" = some (.bool false) ∧
   (∃ em, lookupK p "error" = some (.str em)) ∧
   (∃ et, lookupK p "error_type" = some (.str et)))

theorem wellformed_failPayload (e : Exc) : wellformedPayload (failPayload e) :=
  Or.inr ⟨rfl, ⟨e.msg, rfl⟩, ⟨e.name, rfl⟩⟩

theorem executeBody_ok (C : Collaborators) (params : JVal) (p : List (String × JVal))
    (h : executeBody C params = .ok p) :
    lookupK p "success" = some (.bool true) ∧ lookupK p "error" = none ∧
    lookupK p "error_type" = none := by
  unfold executeBody at h
  split at h
  · exact absurd h (by simp)
  · dsimp only at h
    split at h
    · exact absurd h (by simp)
    · cases h
      exact ⟨rfl, rfl, rfl⟩

theorem lensesBody_ok (C : Collaborators) (params : JVal) (p : List (String × JVal))
    (h : lensesBody C params = .ok p) :
    lookupK p "success" = some (.bool true) ∧ lookupK p "error" = none ∧
    lookupK p "error_type" = none := by
  unfold lensesBody at h
  split at h
  · exact absurd h (by simp)
  · split at h
    · exact absurd h (by simp)
    · split at h
      · exact absurd h (by simp)
      · cases h
        exact ⟨rfl, rfl, rfl⟩

theorem validateBody_ok (C : Collaborators) (st : VState) (params : JVal)
    (p : List (String × JVal)) (h : (validateBody C st params).1 = .ok p) :
    lookupK p "success" = some (.bool true) ∧ lookupK p "error" = none ∧
    lookupK p "error_type" = none := by
  unfold validateBody at h
  cases h1 : pyGetItem params "json_object" with
  | error e => rw [h1] at h; exact absurd h (by simp)
  | ok jo =>
    rw [h1] at h
    cases h2 : pyGetItem params "json_schema" with
    | error e => rw [h2] at h; exact absurd h (by simp)
    | ok js =>
      rw [h2] at h
      simp only at h
      cases h
      exact ⟨rfl, rfl, rfl⟩

/-- The payload placed into the tool_result is the handler body's
result when it returned, and the failure dictionary of the caught
exception when it raised. -/
theorem dispatched_payload (C : Collaborators) (st : VState) (tool : String) (params : JVal)
    (htool : tool = "execute" ∨ tool = "apply_lenses" ∨ tool = "validate_schema") :
    (dispatched C st tool params).1 =
      (match toolBodyResult C st tool params with
       | .ok p => p
       | .error e => failPayload e) := by
  rcases htool with h | h | h <;> subst h
  · rfl
  · rfl
  · rcases hv : validateBody C st params with ⟨b, st2⟩
    cases b <;> simp [dispatched, handleValidateSchema, toolBodyResult, hv]

theorem dispatched_wellformed (C : Collaborators) (st : VState) (tool : String) (params : JVal)
    (htool : tool = "execute" ∨ tool = "apply_lenses" ∨ tool = "validate_schema") :
    wellformedPayload (dispatched C st tool params).1 := by
  rw [dispatched_payload C st tool params htool]
  cases hb : toolBodyResult C st tool params with
  | error e => exact wellformed_failPayload e
  | ok p =>
    rcases htool with h | h | h <;> subst h
    · exact Or.inl (executeBody_ok C params p hb)
    · exact Or.inl (lensesBody_ok C params p hb)
    · exact Or.inl (validateBody_ok C st params p hb)

theorem toolNameOf_cases (m : MCPMessage) (h : registeredName (lookupK m.data "name") = true) :
    toolNameOf m = "execute" ∨ toolNameOf m = "apply_lenses" ∨
    toolNameOf m = "validate_schema" := by
  rcases registeredName_cases _ h with h1 | h1 | h1
  · left; simp [toolNameOf, h1]
  · right; left; simp [toolNameOf, h1]
  · right; right; simp [toolNameOf, h1]

/-- Every exception escaping the lens-spec parse or the lens
application is re-raised by _apply_single_lens as a `ValueError` whose
message names the offending lens spec. -/
theorem applySingleLens_error (C : Collaborators) (tv specv : JVal) (e : Exc)
    (h : applySingleLens C tv specv = .error e) :
    ∃ inner,
      e = ⟨"ValueError", "Error applying lens '" ++ pyStrInterp specv ++ "': " ++ inner⟩ := by
  unfold applySingleLens at h
  dsimp only at h
  split at h
  · exact absurd h (by simp)
  · rename_i e2 heq
    cases h
    exact ⟨e2.msg, rfl⟩

/-- A failing single-lens chain makes the handler body fail with the
wrapping `ValueError` of apply_lenses_to_text. -/
theorem lensesBody_single_error (C : Collaborators) (text : String) (specv : JVal) (e : Exc)
    (h : applySingleLens C (.str text) specv = .error e) :
    lensesBody C (.obj [("input_string", .str text), ("lenses", .arr [specv])]) =
      .error ⟨"ValueError", "Error applying lenses: " ++ e.msg⟩ := by
  simp [lensesBody, pyGetItem, lookupK, apply_lenses_to_text, pyIter, applyLensesGo, h]

/-- On a cache hit, validate goes straight to `iter_errors` on the
cached validator's schema: `check_schema` is not consulted and the
state does not change. -/
theorem validate_hit (C : Collaborators) (st : VState) (data schema : JVal)
    (v : CachedValidator)
    (h : lookupK st.cache (dumpsSorted schema) = some v) :
    SchemaValidator.validate C st data schema =
      (catchValidate (iterResult C v.schema data), st) := by
  unfold SchemaValidator.validate
  dsimp only
  rw [h]

/-- On a cache miss, validate inserts the freshly compiled validator
into the cache BEFORE running `check_schema`, so the insertion survives
a schema-compilation failure. -/
theorem validate_miss (C : Collaborators) (st : VState) (data schema : JVal)
    (h : lookupK st.cache (dumpsSorted schema) = none) :
    SchemaValidator.validate C st data schema =
      match C.checkSchema schema with
      | some m =>
          ((⟨false, some ["Invalid schema: " ++ m], none⟩ : ValidationResult),
           (⟨st.cache ++ [(dumpsSorted schema, ⟨st.nextStamp, schema⟩)],
             st.nextStamp + 1⟩ : VState))
      | none =>
          (catchValidate (iterResult C schema data),
           ⟨st.cache ++ [(dumpsSorted schema, ⟨st.nextStamp, schema⟩)], st.nextStamp + 1⟩) := by
  unfold SchemaValidator.validate
  dsimp only
  rw [h]

theorem connectionLoop_cons (C : Collaborators) (st : VState) (m : MCPMessage)
    (ms : List MCPMessage) :
    connectionLoop C st (m :: ms) =
      ((handle_message C st m).1 :: (connectionLoop C (handle_message C st m).2 ms).1,
       (connectionLoop C (handle_message C st m).2 ms).2) := rfl

/-! ## Claims -/

/-- Collaborator whose document engine raises `FACETError` (the spec's
`execute(source, variables) -> result | error` failing). -/
def CDocFail : Collaborators :=
  { C0 with executeDoc := fun _ => .error ⟨"FACETError", "Parse failed"⟩ }

def c1msg : MCPMessage :=
  ⟨"tool_call", [("name", .str "execute"), ("parameters", .obj [("facet_source", .str "bad")]),
    ("id", .str "c1-1")], none, none⟩

/-- C1 counterexample: a document-execution failure inside the execute
handler (the collaborator raising `FACETError`) is NOT converted into a
tool_result payload with success=false; the engine swallows the error
into a dictionary and the handler wraps it in a success=true payload,
with the failure only nested inside `result.result`. -/
theorem c1_counterexample :
    (handle_message CDocFail VState.init c1msg).1.type = "tool_result" ∧
    lookupK (handle_message CDocFail VState.init c1msg).1.data "result" =
      some (.obj [("success", .bool true),
        ("result", .obj [("success", .bool false), ("error", .str "Parse failed"),
                         ("error_type", .str "FACETError")]),
        ("execution_time_ms", .int 0)]) :=
  ⟨rfl, rfl⟩

/-- C1 (amended): for every tool_call naming a registered tool, the
dispatch always returns a `tool_result` envelope (never a
transport-level error envelope, and no exception escapes — the model
function is total), and any exception RAISED inside the tool handler's
body is caught and converted into the payload
success=false/error/error_type; however, document-level failures in
execute are caught inside the engine and returned nested under a
success=true payload (see the counterexample). -/
theorem c1_theorem (C : Collaborators) (st : VState) (m : MCPMessage)
    (h1 : m.type = "tool_call")
    (h2 : registeredName (lookupK m.data "name") = true) :
    (handle_message C st m).1.type = "tool_result" ∧
    ∀ e, toolBodyResult C st (toolNameOf m) (paramsOf m) = .error e →
      lookupK (handle_message C st m).1.data "result" = some (.obj (failPayload e)) := by
  rw [handle_message_registered C st m h1 h2]
  refine ⟨rfl, ?_⟩
  intro e he
  have hp := dispatched_payload C st (toolNameOf m) (paramsOf m) (toolNameOf_cases m h2)
  rw [he] at hp
  simp [lookupK, hp]

def c1wmsg : MCPMessage :=
  ⟨"tool_call", [("name", .str "apply_lenses"), ("parameters", .obj []), ("id", .str "c1-w")],
   none, none⟩

/-- C1 witness: a `KeyError` raised inside the apply_lenses handler is
converted into the failure payload of a tool_result. -/
theorem c1_witness :
    (handle_message C0 VState.init c1wmsg).1.type = "tool_result" ∧
    lookupK (handle_message C0 VState.init c1wmsg).1.data "result" =
      some (.obj (failPayload ⟨"KeyError", "'input_string'"⟩)) := by
  have h := c1_theorem C0 VState.init c1wmsg rfl rfl
  exact ⟨h.1, h.2 ⟨"KeyError", "'input_string'"⟩ rfl⟩

def c2msg : MCPMessage :=
  ⟨"tool_call", [("name", .str "apply_lenses"),
    ("parameters", .obj [("input_string", .str "hi"), ("lenses", .arr [])]),
    ("id", .str "abc-123")], some "abc-123", none⟩

/-- C2 counterexample: for a tool_call whose envelope-level id is
"abc-123", the matching tool_result's envelope-level id is `None`
(handle_message constructs the response without an id), so the
envelope-level id does NOT round-trip; only `data.tool_call_id` echoes
the request's `data.id`. -/
theorem c2_counterexample :
    c2msg.id = some "abc-123" ∧
    (handle_message C0 VState.init c2msg).1.id = none ∧
    (handle_message C0 VState.init c2msg).1.id ≠ c2msg.id ∧
    lookupK (handle_message C0 VState.init c2msg).1.data "tool_call_id" =
      some (.str "abc-123") :=
  ⟨rfl, rfl, by decide, rfl⟩

/-- C2 (amended): for every tool_call naming a registered tool, the
tool_result's `data.tool_call_id` equals the request's `data.id`
(defaulting to null when absent), while the tool_result's
envelope-level id is always unset (`None`), not an echo of the
request's envelope-level id. -/
theorem c2_theorem (C : Collaborators) (st : VState) (m : MCPMessage)
    (h1 : m.type = "tool_call")
    (h2 : registeredName (lookupK m.data "name") = true) :
    lookupK (handle_message C st m).1.data "tool_call_id" =
      some ((lookupK m.data "id").getD .null) ∧
    (handle_message C st m).1.id = none := by
  rw [handle_message_registered C st m h1 h2]
  exact ⟨rfl, rfl⟩

def c2wmsg : MCPMessage :=
  ⟨"tool_call", [("name", .str "apply_lenses"),
    ("parameters", .obj [("input_string", .str "ok"), ("lenses", .arr [])]),
    ("id", .str "w2-1")], some "w2-1", none⟩

/-- C2 witness: concrete correlation-id echo. -/
theorem c2_witness :
    lookupK (handle_message C0 VState.init c2wmsg).1.data "tool_call_id" =
      some (.str "w2-1") ∧
    (handle_message C0 VState.init c2wmsg).1.id = none := by
  have h := c2_theorem C0 VState.init c2wmsg rfl rfl
  exact ⟨h.1, h.2⟩

def c3msg : MCPMessage :=
  ⟨"tool_call", [("name", .str "execute"), ("parameters", .obj [("facet_source", .str "@x")]),
    ("id", .str "c3-1")], none, none⟩

/-- C3 counterexample: the tool_result's data mapping is exactly
\x7btool_call_id, result\x7d — it has NO top-level `success` key
(handle_message builds the dict literal itself instead of using
ToolResult.to_message, which would have added one). -/
theorem c3_counterexample :
    ((handle_message C0 VState.init c3msg).1.data.map Prod.fst = ["tool_call_id", "result"]) ∧
    lookupK (handle_message C0 VState.init c3msg).1.data "success" = none :=
  ⟨rfl, rfl⟩

/-- C3 (amended): for every tool_call naming a registered tool, the
tool_result's data mapping has exactly the shape
\x7btool_call_id, result\x7d (no top-level success boolean — the
success flag lives inside the `result` payload), and the handler's
payload is exactly one of a success payload or success=false with
\x7berror, error_type\x7d, never both. -/
theorem c3_theorem (C : Collaborators) (st : VState) (m : MCPMessage)
    (h1 : m.type = "tool_call")
    (h2 : registeredName (lookupK m.data "name") = true) :
    ((handle_message C st m).1.data.map Prod.fst = ["tool_call_id", "result"]) ∧
    (lookupK (handle_message C st m).1.data "success" = none) ∧
    ∃ p, lookupK (handle_message C st m).1.data "result" = some (.obj p) ∧
      wellformedPayload p := by
  rw [handle_message_registered C st m h1 h2]
  exact ⟨rfl, rfl, (dispatched C st (toolNameOf m) (paramsOf m)).1, rfl,
    dispatched_wellformed C st _ _ (toolNameOf_cases m h2)⟩

def c3wmsg : MCPMessage :=
  ⟨"tool_call", [("name", .str "validate_schema"),
    ("parameters", .obj [("json_object", .obj []),
      ("json_schema", .obj [("type", .str "object")])]),
    ("id", .str "w3-1")], none, none⟩

/-- C3 witness: concrete data shape for a validate_schema dispatch. -/
theorem c3_witness :
    ((handle_message C0 VState.init c3wmsg).1.data.map Prod.fst = ["tool_call_id", "result"]) ∧
    lookupK (handle_message C0 VState.init c3wmsg).1.data "success" = none := by
  have h := c3_theorem C0 VState.init c3wmsg rfl rfl
  exact ⟨h.1, h.2.1⟩

/-- C4: for every tool_call whose (hashable) data.name is not a
registered tool, the response is an error envelope whose
`available_tools` lists exactly the registered tool names (execute,
apply_lenses, validate_schema) and whose error message names the
unknown tool.  (An unhashable name would make Python's dict membership
raise before this branch; see `registeredName`.) -/
theorem c4_theorem (C : Collaborators) (st : VState) (m : MCPMessage)
    (h1 : m.type = "tool_call")
    (h0 : pyHashable ((lookupK m.data "name").getD .null) = true)
    (h2 : registeredName (lookupK m.data "name") = false) :
    (handle_message C st m).1.type = "error" ∧
    lookupK (handle_message C st m).1.data "available_tools" =
      some (.arr [.str "execute", .str "apply_lenses", .str "validate_schema"]) ∧
    (∀ s, lookupK m.data "name" = some (.str s) →
      lookupK (handle_message C st m).1.data "error" =
        some (.str ("Unknown tool: " ++ s))) := by
  rw [handle_message_unknown C st m h1 h2]
  refine ⟨rfl, rfl, ?_⟩
  intro s hs
  simp [lookupK, hs, pyStrInterp]

def c4msg : MCPMessage :=
  ⟨"tool_call", [("name", .str "frobnicate"), ("parameters", .obj []), ("id", .str "c4-1")],
   none, none⟩

/-- C4 witness: the error envelope for an unknown tool "frobnicate". -/
theorem c4_witness :
    (handle_message C0 VState.init c4msg).1.type = "error" ∧
    lookupK (handle_message C0 VState.init c4msg).1.data "available_tools" =
      some (.arr [.str "execute", .str "apply_lenses", .str "validate_schema"]) ∧
    lookupK (handle_message C0 VState.init c4msg).1.data "error" =
      some (.str "Unknown tool: frobnicate") := by
  have h := c4_theorem C0 VState.init c4msg rfl rfl rfl
  exact ⟨h.1, h.2.1, h.2.2 "frobnicate" rfl⟩

/-- The invalid schema of the repository's own
test_validate_invalid_schema test. -/
def c5schema : JVal := .obj [
  ("type", .str "invalid_type"),
  ("properties", .obj [("name", .obj [("type", .str "string")])])]

def c5data : JVal := .obj [("name", .str "John")]

def isInvalidTypeSchema (s : JVal) : Bool :=
  match s with
  | .obj (("type", .str "invalid_type") :: _) => true
  | _ => false

/-- Collaborator modelling jsonschema on the invalid schema:
`check_schema` raises `SchemaError` for it, and a validator compiled
from it raises `UnknownType` (not a `SchemaError`) during
`iter_errors`. -/
def CSchema : Collaborators := { C0 with
  checkSchema := fun s =>
    if isInvalidTypeSchema s then
      some "'invalid_type' is not valid under any of the given schemas"
    else none,
  iterErrors := fun s _ =>
    if isInvalidTypeSchema s then .error ⟨"UnknownType", "Unknown type: 'invalid_type'"⟩
    else .ok [] }

def c5run1 : ValidationResult × VState :=
  SchemaValidator.validate CSchema VState.init c5data c5schema

def c5run2 : ValidationResult × VState :=
  SchemaValidator.validate CSchema c5run1.2 c5data c5schema

theorem c5run1_eq :
    c5run1 =
      (⟨false,
        some ["Invalid schema: 'invalid_type' is not valid under any of the given schemas"],
        none⟩,
       ⟨[(dumpsSorted c5schema, ⟨0, c5schema⟩)], 1⟩) := by
  show SchemaValidator.validate CSchema VState.init c5data c5schema = _
  rw [validate_miss CSchema VState.init c5data c5schema rfl]
  rfl

theorem c5run2_eq :
    c5run2 =
      (⟨false, some ["Validation error: Unknown type: 'invalid_type'"], none⟩, c5run1.2) := by
  have hc : c5run1.2 = ⟨[(dumpsSorted c5schema, ⟨0, c5schema⟩)], 1⟩ := by rw [c5run1_eq]
  show SchemaValidator.validate CSchema c5run1.2 c5data c5schema = _
  rw [hc]
  rw [validate_hit CSchema _ c5data c5schema ⟨0, c5schema⟩ (by unfold lookupK; rw [if_pos rfl])]
  rfl

/-- C5: evaluating SchemaValidator.validate twice on the same invalid
schema (the repo's own test input).  The cache-hit half of the claim
holds: one cache entry per distinct content, same compiled identity
(stamp), no recompilation.  The SchemaError half fails on repeats: the
first call returns the `Invalid schema: ...` (SchemaError) kind, but —
because the validator is inserted into the cache BEFORE `check_schema`
runs — the second call hits the cache, skips the schema check, and
surfaces a generic `Validation error: ...` result instead, so an
invalid schema does not always yield the SchemaError kind. -/
theorem c5_theorem :
    c5run1.1.is_valid = false ∧
    c5run1.1.errors =
      some ["Invalid schema: 'invalid_type' is not valid under any of the given schemas"] ∧
    c5run2.1.errors = some ["Validation error: Unknown type: 'invalid_type'"] ∧
    c5run2.1.errors ≠ c5run1.1.errors ∧
    c5run1.2.cache.map Prod.fst = [dumpsSorted c5schema] ∧
    c5run2.2.cache.map Prod.fst = [dumpsSorted c5schema] ∧
    c5run1.2.nextStamp = 1 ∧
    c5run2.2.nextStamp = 1 ∧
    c5run2.2.cache.map (fun p => p.2.stamp) = c5run1.2.cache.map (fun p => p.2.stamp) := by
  refine ⟨?_, ?_, ?_, ?_, ?_, ?_, ?_, ?_, ?_⟩
  · rw [c5run1_eq]
  · rw [c5run1_eq]
  · rw [c5run2_eq]
  · rw [c5run2_eq, c5run1_eq]
    decide
  · rw [c5run1_eq]
    rfl
  · rw [c5run2_eq, c5run1_eq]
    rfl
  · rw [c5run1_eq]
  · rw [c5run2_eq, c5run1_eq]
  · rw [c5run2_eq]

/-- C6: template substitution replaces every occurrence of
\x7b\x7bkey\x7d\x7d by the canonical rendering of the value (the spec's
two defining examples, covering string pass-through and numeric
rendering, and the unmatched-placeholder example), a single-binding
substitution is exactly replace-all with the rendered value, and a
source containing none of the mapping's placeholder tokens passes
through verbatim (no error). -/
theorem c6_theorem :
    (substitute_variables "Hello \x7b\x7bname\x7d\x7d, age \x7b\x7bage\x7d\x7d"
        [("name", .str "Alice"), ("age", .int 25)] = "Hello Alice, age 25") ∧
    (substitute_variables "Hi \x7b\x7bx\x7d\x7d" [] = "Hi \x7b\x7bx\x7d\x7d") ∧
    (∀ (src k : String) (v : JVal),
      substitute_variables src [(k, v)] =
        pyReplace src ("\x7b\x7b" ++ k ++ "\x7d\x7d") (render v)) ∧
    (∀ (src : String) (vars : List (String × JVal)),
      (∀ kv ∈ vars, occursStr ("\x7b\x7b" ++ kv.1 ++ "\x7d\x7d") src = false) →
      substitute_variables src vars = src) := by
  refine ⟨by decide, rfl, fun _ _ _ => rfl, fun src vars h => substitute_fixed vars src h⟩

/-- C6 witness: a source without the mapping's placeholder passes
through unchanged. -/
theorem c6_witness :
    substitute_variables "plain text" [("k", JVal.str "v")] = "plain text" :=
  c6_theorem.2.2.2 "plain text" [("k", JVal.str "v")] (by decide)

/-- C7 counterexample: with variables \x7ba: "A", b: "a"\x7d — whose
rendered values contain no \x7b\x7b...\x7d\x7d-shaped token, indeed no
brace at all — substituting the source made of nested braces is NOT
idempotent: the first pass forms the new placeholder
\x7b\x7ba\x7d\x7d, which a second pass expands. -/
theorem c7_counterexample :
    (occursStr "\x7b\x7b" (render (JVal.str "A")) = false) ∧
    (occursStr "\x7d\x7d" (render (JVal.str "A")) = false) ∧
    (occursStr "\x7b\x7b" (render (JVal.str "a")) = false) ∧
    (occursStr "\x7d\x7d" (render (JVal.str "a")) = false) ∧
    (substitute_variables "\x7b\x7b\x7b\x7bb\x7d\x7d\x7d\x7d"
        [("a", JVal.str "A"), ("b", JVal.str "a")] = "\x7b\x7ba\x7d\x7d") ∧
    (substitute_variables
        (substitute_variables "\x7b\x7b\x7b\x7bb\x7d\x7d\x7d\x7d"
          [("a", JVal.str "A"), ("b", JVal.str "a")])
        [("a", JVal.str "A"), ("b", JVal.str "a")] ≠
      substitute_variables "\x7b\x7b\x7b\x7bb\x7d\x7d\x7d\x7d"
        [("a", JVal.str "A"), ("b", JVal.str "a")]) := by
  refine ⟨rfl, rfl, rfl, rfl, by decide, by decide⟩

/-- C7 (amended): substitution is idempotent whenever the FIRST pass's
output contains no \x7b\x7bkey\x7d\x7d token for any key of the mapping
(value-level absence of placeholder-shaped text is not sufficient,
because a replacement landing between braces already in the source can
form a new placeholder — see the counterexample). -/
theorem c7_theorem (src : String) (vars : List (String × JVal))
    (h : ∀ kv ∈ vars,
      occursStr ("\x7b\x7b" ++ kv.1 ++ "\x7d\x7d") (substitute_variables src vars) = false) :
    substitute_variables (substitute_variables src vars) vars =
      substitute_variables src vars :=
  substitute_fixed vars (substitute_variables src vars) h

/-- C7 witness: ordinary substitution is idempotent. -/
theorem c7_witness :
    substitute_variables
        (substitute_variables "Hi \x7b\x7bn\x7d\x7d" [("n", JVal.str "Bob")])
        [("n", JVal.str "Bob")] =
      substitute_variables "Hi \x7b\x7bn\x7d\x7d" [("n", JVal.str "Bob")] :=
  c7_theorem "Hi \x7b\x7bn\x7d\x7d" [("n", JVal.str "Bob")] (by decide)

/-- An apply_lenses tool_call with one lens spec. -/
def c8msgOf (text : String) (specv idv : JVal) : MCPMessage :=
  ⟨"tool_call", [("name", .str "apply_lenses"),
    ("parameters", .obj [("input_string", .str text), ("lenses", .arr [specv])]),
    ("id", idv)], none, none⟩

/-- C8 counterexample: a lens with malformed parameter syntax
(`limit(abc)`) fails inside a tool_result with success=false and an
error message naming the offending lens — but the error type is
`ValueError`, not the `LensError` the claim states. -/
theorem c8_counterexample :
    (handle_message C0 VState.init (c8msgOf "hello" (.str "limit(abc)") (.str "c8-1"))).1.type
      = "tool_result" ∧
    lookupK (handle_message C0 VState.init
        (c8msgOf "hello" (.str "limit(abc)") (.str "c8-1"))).1.data "result" =
      some (.obj [("success", .bool false),
        ("error",
         .str "Error applying lenses: Error applying lens 'limit(abc)': Unsupported lens arguments: abc"),
        ("error_type", .str "ValueError")]) ∧
    ("ValueError" : String) ≠ "LensError" :=
  ⟨rfl, rfl, by decide⟩

/-- C8 (amended): for every apply_lenses call whose (single) lens entry
fails — be it malformed parameter syntax, which raises before the lens
library is reached, or an unknown lens name, which makes the external
lens library raise `LensError` — the failure surfaces inside a
tool_result payload with success=false whose error message names the
offending lens, and the reported error_type is `ValueError` (each lens
failure is re-wrapped in `ValueError`), never a transport-level
error. -/
theorem c8_theorem (C : Collaborators) (st : VState) (text : String) (specv idv : JVal)
    (e : Exc) (h : applySingleLens C (.str text) specv = .error e) :
    (∃ inner,
      e = ⟨"ValueError", "Error applying lens '" ++ pyStrInterp specv ++ "': " ++ inner⟩) ∧
    (handle_message C st (c8msgOf text specv idv)).1.type = "tool_result" ∧
    lookupK (handle_message C st (c8msgOf text specv idv)).1.data "result" =
      some (.obj (failPayload ⟨"ValueError", "Error applying lenses: " ++ e.msg⟩)) := by
  have hreg : registeredName (lookupK (c8msgOf text specv idv).data "name") = true := rfl
  refine ⟨applySingleLens_error C _ specv e h, ?_, ?_⟩
  · rw [handle_message_registered C st _ rfl hreg]
  · rw [handle_message_registered C st _ rfl hreg]
    have hb := lensesBody_single_error C text specv e h
    simp [dispatched, handleApplyLenses, toolNameOf, paramsOf, c8msgOf, lookupK, hb]

/-- C8 witness: the failure payload for the malformed lens spec
`limit(xyz)`. -/
theorem c8_witness :
    (handle_message C0 VState.init (c8msgOf "w" (.str "limit(xyz)") (.str "w8-1"))).1.type
      = "tool_result" ∧
    lookupK (handle_message C0 VState.init
        (c8msgOf "w" (.str "limit(xyz)") (.str "w8-1"))).1.data "result" =
      some (.obj (failPayload
        ⟨"ValueError",
         "Error applying lenses: Error applying lens 'limit(xyz)': Unsupported lens arguments: xyz"⟩)) := by
  have h := c8_theorem C0 VState.init "w" (.str "limit(xyz)") (.str "w8-1")
    ⟨"ValueError", "Error applying lens 'limit(xyz)': Unsupported lens arguments: xyz"⟩ rfl
  exact ⟨h.2.1, h.2.2⟩

/-- C9: within one connection, for every sequence of tool_call messages
naming registered tools, the loop emits exactly one response per
request in the same order — the i-th response is a tool_result whose
`tool_call_id` equals the i-th request's `data.id` — because each
inbound message is fully handled (and its response produced) before
the next is processed, which is what the sequential fold
`connectionLoop` embeds. -/
theorem c9_theorem (C : Collaborators) (st : VState) (msgs : List MCPMessage)
    (h : msgs.all
      (fun m => (m.type == "tool_call") && registeredName (lookupK m.data "name")) = true) :
    (connectionLoop C st msgs).1.length = msgs.length ∧
    ∀ i, i < msgs.length →
      ∃ r mm, (connectionLoop C st msgs).1.get? i = some r ∧ msgs.get? i = some mm ∧
        r.type = "tool_result" ∧
        lookupK r.data "tool_call_id" = some ((lookupK mm.data "id").getD .null) := by
  induction msgs generalizing st with
  | nil =>
    exact ⟨rfl, fun i hi => absurd hi (by simp)⟩
  | cons m ms ih =>
    rw [List.all_cons, Bool.and_eq_true] at h
    obtain ⟨hm, hms⟩ := h
    rw [Bool.and_eq_true] at hm
    have hty : m.type = "tool_call" := by simpa using hm.1
    have hreg := hm.2
    have hstep := handle_message_registered C st m hty hreg
    constructor
    · rw [connectionLoop_cons]
      simp [(ih (handle_message C st m).2 hms).1]
    · intro i hi
      match i with
      | 0 =>
        refine ⟨(handle_message C st m).1, m, rfl, rfl, ?_, ?_⟩
        · rw [hstep]
        · simp [hstep, lookupK]
      | j + 1 =>
        have hj : j < ms.length := by simpa using hi
        obtain ⟨r, mm, hr, hmm, h3, h4⟩ := (ih (handle_message C st m).2 hms).2 j hj
        exact ⟨r, mm, hr, hmm, h3, h4⟩

def w9m1 : MCPMessage :=
  ⟨"tool_call", [("name", .str "apply_lenses"),
    ("parameters", .obj [("input_string", .str "a"), ("lenses", .arr [])]),
    ("id", .str "w9-1")], none, none⟩

def w9m2 : MCPMessage :=
  ⟨"tool_call", [("name", .str "execute"),
    ("parameters", .obj [("facet_source", .str "@b")]),
    ("id", .str "w9-2")], none, none⟩

/-- C9 witness: two sequential tool calls on one connection produce two
tool_results whose correlation ids echo the request ids in order. -/
theorem c9_witness :
    ((connectionLoop C0 VState.init [w9m1, w9m2]).1.map (fun r => r.type) =
      ["tool_result", "tool_result"]) ∧
    ((connectionLoop C0 VState.init [w9m1, w9m2]).1.map
        (fun r => lookupK r.data "tool_call_id") =
      [some (.str "w9-1"), some (.str "w9-2")]) ∧
    (connectionLoop C0 VState.init [w9m1, w9m2]).1.length = [w9m1, w9m2].length := by
  refine ⟨rfl, rfl, (c9_theorem C0 VState.init [w9m1, w9m2] (by decide)).1⟩

def c10lensMsg (idv : JVal) : MCPMessage :=
  ⟨"tool_call", [("name", .str "apply_lenses"), ("parameters", .obj []), ("id", idv)],
   none, none⟩

def c10execMsg (idv : JVal) : MCPMessage :=
  ⟨"tool_call", [("name", .str "execute"), ("parameters", .obj []), ("id", idv)],
   none, none⟩

/-- C10: even though the registry declares `input_string`/`lenses`
(resp. `facet_source`) as required in the tools' parameter schemas, the
dispatch never checks the call's parameters against those schemas: a
call with empty parameters is handed to the handler, whose subscription
raises `KeyError`, and the caught exception surfaces as a tool_result
payload with success=false and error_type "KeyError" — not a
schema-violation error, not an error envelope, and not an uncaught
exception (this holds for every collaborator and cache state). -/
theorem c10_theorem (C : Collaborators) (st : VState) (idv : JVal) :
    requiredKeys applyLensesParamsSchema = ["input_string", "lenses"] ∧
    requiredKeys executeParamsSchema = ["facet_source"] ∧
    (handle_message C st (c10lensMsg idv)).1.type = "tool_result" ∧
    lookupK (handle_message C st (c10lensMsg idv)).1.data "result" =
      some (.obj (failPayload ⟨"KeyError", "'input_string'"⟩)) ∧
    (handle_message C st (c10execMsg idv)).1.type = "tool_result" ∧
    lookupK (handle_message C st (c10execMsg idv)).1.data "result" =
      some (.obj (failPayload ⟨"KeyError", "'facet_source'"⟩)) :=
  ⟨rfl, rfl, rfl, rfl, rfl, rfl⟩

end FacetMCP
